import Mathlib

/-!
Shallow embedding of the python-neutronclient sources under verification:
`neutronclient/shell.py` (dispatcher, exit codes, subcommand argument
splitting) and `neutronclient/neutron/v2_0/router.py` (router commands).

Python dictionaries that become JSON request bodies are embedded as
insertion-ordered association lists `List (String × Json)`; Python `None`
values of optional parsed arguments are `Option.none`; exceptions become
`Option`/`Except` results or explicit outcome data types.  Helpers that
live in modules of this repository that are not part of the sources here
(`neutronclient/neutron/v2_0/__init__.py`, `neutronclient/common/utils.py`,
`neutronclient/neutron/v2_0/availability_zone.py`) are modelled from the
spec, each marked `Modelled from the spec:` in its doc comment.
-/

set_option autoImplicit false

namespace NeutronClient

/-- JSON values, the payloads of request bodies and API responses. -/
inductive Json where
  | null
  | bool (b : Bool)
  | str (s : String)
  | num (n : Int)
  | arr (xs : List Json)
  | obj (fields : List (String × Json))

mutual

/-- Modelled from the spec: `oslo_serialization.jsonutils.dumps` (an external
library, not under the sources here) — the compact JSON rendering of a value,
as used by the `external_gateway_info` column formatter. -/
def Json.dumps : Json → String
  | .null => "null"
  | .bool true => "true"
  | .bool false => "false"
  | .str s => "\"" ++ s ++ "\""
  | .num n => toString n
  | .arr xs => "[" ++ Json.dumpsArr xs ++ "]"
  | .obj fs => "\x7b" ++ Json.dumpsObj fs ++ "\x7d"

/-- Comma-separated rendering of a JSON array's elements. -/
def Json.dumpsArr : List Json → String
  | [] => ""
  | [x] => Json.dumps x
  | x :: xs => Json.dumps x ++ ", " ++ Json.dumpsArr xs

/-- Comma-separated rendering of a JSON object's fields. -/
def Json.dumpsObj : List (String × Json) → String
  | [] => ""
  | [(k, v)] => "\"" ++ k ++ "\": " ++ Json.dumps v
  | (k, v) :: fs => "\"" ++ k ++ "\": " ++ Json.dumps v ++ ", " ++ Json.dumpsObj fs

end

/-- First value bound to `key` in an insertion-ordered dictionary
(Python dict keys are unique, so first match is the match). -/
def lookupField (fields : List (String × Json)) (key : String) : Option Json :=
  match fields with
  | [] => none
  | (k, v) :: rest => if k = key then some v else lookupField rest key

/-- `router.py` line 30, `_format_external_gateway_info`: dump the record's
`external_gateway_info` value as JSON; a missing key (`KeyError`) or a
non-indexable record (`TypeError`) yields the empty string.  A record is
embedded as a `Json` value; only an object is indexable by a string key. -/
def _format_external_gateway_info (router : Json) : String :=
  match router with
  | .obj fields =>
    match lookupField fields "external_gateway_info" with
    | some v => Json.dumps v
    | none => ""
  | _ => ""

/-- Modelled from the spec: `neutronV20.update_dict` (in
`neutronclient/neutron/v2_0/__init__.py`, not under the sources here).
Per the spec's Create/Update contract — "contains exactly the required
fields with no extraneous null entries" — it copies each listed attribute
into the body exactly when the parsed argument is present and not None. -/
def update_dict (attrs : List (String × Option Json)) (body : List (String × Json)) :
    List (String × Json) :=
  attrs.foldl
    (fun b kv =>
      match kv.2 with
      | some v => b ++ [(kv.1, v)]
      | none => b)
    body

/-- Parsed arguments of `router-create` (`CreateRouter`, `router.py` line 53):
`admin_state` is a `store_false` flag defaulting to `True`; `name` is a
required positional; `tenant_id` comes from the CreateCommand base class
(absent here, default None); `distributed` and `ha` are optional booleans
whose attribute is absent unless the flag is given; `availability_zone_hints`
is an optional repeatable list (empty = not given). -/
structure CreateRouterArgs where
  admin_state : Bool := true
  name : String
  tenant_id : Option String := none
  distributed : Option Bool := none
  ha : Option Bool := none
  availability_zone_hints : List String := []
  deriving Repr

/-- Modelled from the spec: `availability_zone.args2body_az_hint` (in
`neutronclient/neutron/v2_0/availability_zone.py`, not under the sources
here) — copies the availability-zone hint list into the body only when
hints were given. -/
def args2body_az_hint (hints : List String) (body : List (String × Json)) :
    List (String × Json) :=
  if hints.isEmpty then body
  else body ++ [("availability_zone_hints", Json.arr (hints.map Json.str))]

/-- `router.py` line 80, `CreateRouter.args2body`: start from
`admin_state_up`, copy `name`, `tenant_id`, `distributed`, `ha` when
specified, then the availability-zone hints, and wrap under `"router"`. -/
def createRouter_args2body (a : CreateRouterArgs) : Json :=
  let body : List (String × Json) := [("admin_state_up", Json.bool a.admin_state)]
  let body := update_dict
    [("name", some (Json.str a.name)),
     ("tenant_id", a.tenant_id.map Json.str),
     ("distributed", a.distributed.map Json.bool),
     ("ha", a.ha.map Json.bool)]
    body
  let body := args2body_az_hint a.availability_zone_hints body
  Json.obj [("router", Json.obj body)]

/-- One `--route destination=CIDR,nexthop=IP_ADDR` occurrence of
`router-update`, parsed by `utils.str2dict_type` into a two-key dict. -/
structure RouteSpec where
  destination : String
  nexthop : String
  deriving DecidableEq, Repr

/-- The JSON object for one route dict. -/
def routeJson (r : RouteSpec) : Json :=
  Json.obj [("destination", Json.str r.destination), ("nexthop", Json.str r.nexthop)]

/-- Parsed arguments of `router-update` (`UpdateRouter`, `router.py` line 94):
`name` defaults to None; `admin_state` and `distributed` are optional
booleans whose attribute is absent unless given (hence the `hasattr` check
in the source); `routes` is an append action (None when never given, so the
empty list embeds "not given", matching Python truthiness); `no_routes` is a
`store_true` flag, mutually exclusive with `--route` in the argparse group. -/
structure UpdateRouterArgs where
  name : Option String := none
  admin_state : Option Bool := none
  distributed : Option Bool := none
  routes : List RouteSpec := []
  no_routes : Bool := false
  deriving Repr

/-- `router.py` line 126, `UpdateRouter.args2body`, inner body: `admin_state_up`
when the attribute is present, then `update_dict` over `name` and
`distributed`, then `routes` — `null` under `--no-routes`, the given route
list when `--route` occurrences exist, absent otherwise. -/
def updateRouter_body (a : UpdateRouterArgs) : List (String × Json) :=
  let body : List (String × Json) :=
    match a.admin_state with
    | some b => [("admin_state_up", Json.bool b)]
    | none => []
  let body := update_dict
    [("name", a.name.map Json.str),
     ("distributed", a.distributed.map Json.bool)]
    body
  if a.no_routes then body ++ [("routes", Json.null)]
  else if !a.routes.isEmpty then body ++ [("routes", Json.arr (a.routes.map routeJson))]
  else body

/-- `UpdateRouter.args2body`: the inner body wrapped under `"router"`. -/
def updateRouter_args2body (a : UpdateRouterArgs) : Json :=
  Json.obj [("router", Json.obj (updateRouter_body a))]

/-! ### The name resolver (modelled from the spec) -/

/-- A record returned by a collection (list) endpoint: identifier and
display name. -/
structure ApiRecord where
  id : String
  name : String
  deriving DecidableEq, Repr

/-- Outcome of name-to-ID resolution: success, `NotFound`, or
`AmbiguousReference` carrying the candidate identifiers. -/
inductive ResolveResult where
  | ok (ident : String)
  | notFound
  | ambiguous (candidates : List String)
  deriving DecidableEq, Repr

/-- Modelled from the spec: `neutronV20.find_resourceid_by_name_or_id` lives
in `neutronclient/neutron/v2_0/__init__.py`, which is not among the sources
here (only its callers in `router.py` are).  Per the spec's resolver
contract: a token matching the service's identifier format is returned
directly; otherwise the collection is listed filtered by display name, and
zero matches is `NotFound`, one match yields its identifier, two or more
matches is `AmbiguousReference`.  The second component counts the list
calls made. -/
def find_resourceid_by_name_or_id (matchesIdFormat : String → Bool)
    (listByName : String → String → List ApiRecord)
    (resource token : String) : ResolveResult × Nat :=
  if matchesIdFormat token then (ResolveResult.ok token, 0)
  else
    match listByName resource token with
    | [] => (ResolveResult.notFound, 1)
    | [r] => (ResolveResult.ok r.id, 1)
    | rs => (ResolveResult.ambiguous (rs.map ApiRecord.id), 1)

/-! ### Router interface and gateway commands (`router.py` lines 139-284)

The commands' `run` methods are embedded as functions over an abstract
resolver `String → String → Option String` (resource type and token to
identifier; `none` embeds a resolution failure raised as an exception,
which aborts the run) and an abstract API-call function.  The printed
message and the arguments of the API call are returned so the theorems can
speak about them. -/

/-- The port info returned by the add-interface endpoint. -/
structure PortInfo where
  port_id : String
  deriving DecidableEq, Repr

/-- Python `s.split('=', 1)` combined with `'=' in s`, over the character
list of the INTERFACE token: `none` when there is no `'='`, otherwise the
parts before and after the first `'='`. -/
def splitEqOnce : List Char → Option (List Char × List Char)
  | [] => none
  | c :: rest =>
    if c = '=' then some ([], rest)
    else (splitEqOnce rest).map (fun p => (c :: p.1, p.2))

/-- `router.py` line 171: the usage-error text of the `CommandError` that
`RouterInterfaceCommand.run` constructs for an INTERFACE resource other
than `subnet` or `port` — and then discards without raising. -/
def routerInterface_usageErrorText : String :=
  "You must specify either subnet or port for INTERFACE parameter."

/-- The tail of `RouterInterfaceCommand.run` after the INTERFACE token has
been split into a resource type and a value (`router.py` lines 177-186):
resolve the router token, resolve the interface token, build the body
`{resource_id: <resolved>}`, call the API, and print the success message.
Returns the resolved router id, the request body, and the printed message;
`none` embeds a resolution failure aborting the run. -/
def interfaceResolveStep (resolver : String → String → Option String)
    (call_api : String → List (String × Json) → PortInfo)
    (success_message : String → PortInfo → String)
    (routerArg : String) (resource value : String) :
    Option (String × List (String × Json) × String) :=
  match resolver "router" routerArg with
  | none => none
  | some rid =>
    match resolver resource value with
    | none => none
    | some iid =>
      let body := [(resource ++ "_id", Json.str iid)]
      let portinfo := call_api rid body
      some (rid, body, success_message routerArg portinfo)

/-- `router.py` line 164, `RouterInterfaceCommand.run`: split the INTERFACE
token at the first `'='` when one is present (defaulting the resource to
`subnet` otherwise), then resolve and call.  Note that for a resource other
than `subnet` or `port` the source constructs a `CommandError`
(`routerInterface_usageErrorText`) but never raises it, so the run
proceeds unconditionally to `interfaceResolveStep`. -/
def routerInterface_run (resolver : String → String → Option String)
    (call_api : String → List (String × Json) → PortInfo)
    (success_message : String → PortInfo → String)
    (routerArg : String) (interfaceArg : List Char) :
    Option (String × List (String × Json) × String) :=
  let rv : String × String :=
    match splitEqOnce interfaceArg with
    | some p => (String.mk p.1, String.mk p.2)
    | none => ("subnet", String.mk interfaceArg)
  interfaceResolveStep resolver call_api success_message routerArg rv.1 rv.2

/-- `router.py` line 195, `AddInterfaceRouter.success_message`: interpolates
the returned port id and the router token the user supplied. -/
def addInterfaceRouter_success_message (router_id : String) (portinfo : PortInfo) : String :=
  "Added interface " ++ portinfo.port_id ++ " to router " ++ router_id ++ "."

/-- `router.py` line 276, `RemoveGatewayRouter.run`: resolve the router
token, call `remove_gateway_router` on the resolved identifier, and print
the message interpolating the user-supplied token.  Returns the identifier
passed to the endpoint and the printed message; `none` embeds a resolution
failure. -/
def removeGatewayRouter_run (resolver : String → String → Option String)
    (routerArg : String) : Option (String × String) :=
  match resolver "router" routerArg with
  | none => none
  | some rid => some (rid, "Removed gateway from router " ++ routerArg)

/-! ### `shell.py` — subcommand argument splitting (`run_command`, lines 94-109) -/

/-- Python `lst.index(tok)` guarded by `tok in lst`: the index of the first
occurrence of `tok`, or `none` when absent (`shell.py` lines 98-99). -/
def pyIndex (tok : String) : List String → Option Nat
  | [] => none
  | a :: t => if a = tok then some 0 else (pyIndex tok t).map (· + 1)

/-- Python's `cond and a or b` over list truthiness, as in
`index == -1 and _values_specs or values_specs` (`shell.py` line 108):
when `cond` holds the result is `a` unless `a` is empty (falsy), in which
case it falls through to `b`; otherwise `b`. -/
def pyAndOr (cond : Bool) (a b : List String) : List String :=
  if cond then (if a.isEmpty then b else a) else b

/-- `shell.py` line 112, `get_first_valid_cidr`: the first token of the
leftover values that the CIDR validity test accepts.  The test itself
(`utils.is_valid_cidr`) lives in `neutronclient/common/utils.py`, not
among the sources here, and is kept as a parameter. -/
def get_first_valid_cidr (isValidCidr : String → Bool)
    (value_specs : List String) : Option String :=
  value_specs.find? isValidCidr

/-- What `run_command` (`shell.py` line 94) does with a subcommand argument
vector, for the theorems to inspect: the tokens handed to the command's
argument parser, the CIDR moved into `known_args.cidr` by the
`subnet-create` special case (if any), and the final `cmd.values_specs`. -/
structure RunCommandTrace where
  parserInput : List String
  cidrFixup : Option String
  valuesSpecs : List String
  deriving DecidableEq, Repr

/-- `shell.py` line 94, `run_command`: when `'--'` occurs in `sub_argv`, the
parser receives the tokens strictly before the first `'--'` and
`values_specs` is the suffix from the `'--'` on; the parser's leftover
unrecognized tokens are computed by the abstract `parseLeftovers`; then,
only for `subnet-create` with no `cidr` parsed (`isCreateSubnet`,
`cidrArgSet`), the first valid CIDR among the leftovers is moved into
`known_args.cidr` and removed (first occurrence) from the leftovers;
finally `cmd.values_specs` is the Python `and`/`or` of the leftovers and
the `'--'` suffix. -/
def run_command (isCreateSubnet : Bool) (cidrArgSet : Bool)
    (isValidCidr : String → Bool)
    (parseLeftovers : List String → List String)
    (sub_argv : List String) : RunCommandTrace :=
  let idx? := pyIndex "--" sub_argv
  let _argv := match idx? with
    | some i => sub_argv.take i
    | none => sub_argv
  let values_specs := match idx? with
    | some i => sub_argv.drop i
    | none => []
  let lefts := parseLeftovers _argv
  let fix? := if isCreateSubnet && !cidrArgSet then get_first_valid_cidr isValidCidr lefts
              else none
  let lefts := match fix? with
    | some c => lefts.erase c
    | none => lefts
  { parserInput := _argv
    cidrFixup := fix?
    valuesSpecs := pyAndOr idx?.isNone lefts values_specs }

/-! ### `shell.py` — exit codes (`main` line 953, `NeutronShell.run` line 801,
`NeutronShell.run_subcommand` line 847)

The control flow of one invocation is abstracted by the event that decides
its outcome; the exception dispatch of the three nested functions is
embedded faithfully over these events. -/

/-- What escapes `NeutronShell.run` as an exception. -/
inductive Propagated where
  | systemExit (code : Int)
  | keyboardInterrupt
  | neutronClientExc
  | otherExc
  deriving DecidableEq, Repr

/-- The event deciding one invocation's outcome.
* `subSuccess c` — `run_command` returned `c`;
* `globalUsageExit c` — the global option parser raised `SystemExit c`
  (argparse reports usage errors via `SystemExit(2)`);
* `initError dbg isClient` — option parsing or `initialize_app` (e.g.
  authentication) raised an `Exception`; under `--verbose` at debug level
  the exception is re-raised, otherwise logged (`shell.py` lines 834-840);
* `subUsageExit c` — the subcommand's parser raised `SystemExit c`, which
  `run_subcommand` prints a hint for and re-raises (lines 859-862);
* `subError dbg isClient` — the subcommand raised an `Exception`,
  re-raised at debug verbosity, else logged and 1 (lines 863-868);
* `interrupt` — `KeyboardInterrupt`. -/
inductive ShellEvent where
  | subSuccess (code : Int)
  | globalUsageExit (code : Int)
  | initError (debugVerbose : Bool) (isClientError : Bool)
  | subUsageExit (code : Int)
  | subError (debugVerbose : Bool) (isClientError : Bool)
  | interrupt
  deriving DecidableEq, Repr

/-- `NeutronShell.run` / `run_subcommand`: the value returned to `main`, or
the exception that propagates out of both. -/
def neutronShell_run : ShellEvent → Except Propagated Int
  | .subSuccess c => .ok c
  | .globalUsageExit c => .error (.systemExit c)
  | .initError dbg isClient =>
    if dbg then .error (if isClient then .neutronClientExc else .otherExc)
    else .ok 1
  | .subUsageExit c => .error (.systemExit c)
  | .subError dbg isClient =>
    if dbg then .error (if isClient then .neutronClientExc else .otherExc)
    else .ok 1
  | .interrupt => .error .keyboardInterrupt

/-- `shell.py` line 953, `main`: returns the shell's return value, 130 on
`KeyboardInterrupt`, 1 on `NeutronClientException`, 1 on any other
`Exception` — but `SystemExit` is not an `Exception` and passes through
(`.error c`). -/
def main_result (e : ShellEvent) : Except Int Int :=
  match neutronShell_run e with
  | .ok c => .ok c
  | .error (.systemExit c) => .error c
  | .error .keyboardInterrupt => .ok 130
  | .error .neutronClientExc => .ok 1
  | .error .otherExc => .ok 1

/-- `shell.py` line 968, `sys.exit(main(...))`: the process exit code is
`main`'s return value, or the code of a `SystemExit` that escaped it. -/
def processExit (e : ShellEvent) : Int :=
  match main_result e with
  | .ok c => c
  | .error c => c

/-! ### `shell.py` — authentication before subcommands
(`NeutronShell.run` line 801, `initialize_app` line 902) -/

/-- `shell.py` line 902, `initialize_app`: `cmd_name` is `None` when the
remaining argument vector is empty, else the name `find_command` resolves;
`authenticate_user` is called when in interactive mode or `cmd_name` is
not `'help'`. -/
def initialize_app_auth (interactiveMode : Bool)
    (findCommandName : List String → String) (argv : List String) : Bool :=
  let cmdName : Option String :=
    match argv with
    | [] => none
    | _ :: _ => some (findCommandName argv)
  interactiveMode || !(cmdName == some "help")

/-- The externally visible actions of one `NeutronShell.run` invocation, in
order. -/
inductive ShellAction where
  | bashCompletion
  | authenticate
  | interact
  | runSubcommand
  deriving DecidableEq, Repr

/-- `shell.py` line 801, `NeutronShell.run`, as the ordered list of actions
it performs: a `bash-completion` token short-circuits everything
(line 813); otherwise interactive mode is entered iff no subcommand tokens
remain (line 832), `initialize_app` runs — calling `authenticate_user`
under `initialize_app_auth`'s condition — and only then is the subcommand
run (line 845) or the interactive loop entered (line 844). -/
def neutronShell_run_actions (hasBashCompletion : Bool)
    (findCommandName : List String → String) (remainder : List String) :
    List ShellAction :=
  if hasBashCompletion then [ShellAction.bashCompletion]
  else
    let interactive := remainder.isEmpty
    (if initialize_app_auth interactive findCommandName remainder
     then [ShellAction.authenticate] else [])
    ++ [if interactive then ShellAction.interact else ShellAction.runSubcommand]

/-- The parsed argument set the `CreateRouter` argparse declarations
(`router.py` lines 59-78) produce for the vector `myrouter --ha`:
`admin_state` keeps its `store_false` default `True`, the positional
`name` is `myrouter`, `--ha` sets `ha` to `True`, and the remaining
optional arguments are not given. -/
def routerCreate_myrouter_ha_args : CreateRouterArgs :=
  { name := "myrouter", ha := some true }

/-- A body entry `(k, v)` of the router update request corresponds to a
field the user specified: a given `--admin-state-up`, `--name` or
`--distributed` value, the `null` that `--no-routes` asks for, or the
routes accumulated from `--route` occurrences. -/
def specifiedUpdateField (a : UpdateRouterArgs) (k : String) (v : Json) : Prop :=
  (k = "admin_state_up" ∧ ∃ b, a.admin_state = some b ∧ v = Json.bool b) ∨
  (k = "name" ∧ ∃ s, a.name = some s ∧ v = Json.str s) ∨
  (k = "distributed" ∧ ∃ b, a.distributed = some b ∧ v = Json.bool b) ∨
  (k = "routes" ∧ a.no_routes = true ∧ v = Json.null) ∨
  (k = "routes" ∧ a.no_routes = false ∧ a.routes ≠ [] ∧
     v = Json.arr (a.routes.map routeJson))

/-! ## The claims -/

/-- C1: for every resource type and token, name resolution
(`find_resourceid_by_name_or_id` as used by the router commands) returns a
token matching the service's identifier format directly with no list call;
otherwise the collection is queried filtered by display name, and
resolution returns the identifier when exactly one record matches, fails
with `NotFound` on zero matches, and fails with `AmbiguousReference` on
two or more matches — it never silently picks one of several matches. -/
theorem C1_name_resolution
    (fmt : String → Bool) (listByName : String → String → List ApiRecord)
    (resource token : String) :
    (fmt token = true →
       find_resourceid_by_name_or_id fmt listByName resource token =
         (ResolveResult.ok token, 0)) ∧
    (fmt token = false → listByName resource token = [] →
       find_resourceid_by_name_or_id fmt listByName resource token =
         (ResolveResult.notFound, 1)) ∧
    (∀ r, fmt token = false → listByName resource token = [r] →
       find_resourceid_by_name_or_id fmt listByName resource token =
         (ResolveResult.ok r.id, 1)) ∧
    (∀ a b rest, fmt token = false →
       listByName resource token = a :: b :: rest →
       find_resourceid_by_name_or_id fmt listByName resource token =
         (ResolveResult.ambiguous ((a :: b :: rest).map ApiRecord.id), 1)) := by
  refine ⟨fun hf => by simp [find_resourceid_by_name_or_id, hf],
          fun hf hl => ?_, fun r hf hl => ?_, fun a b rest hf hl => ?_⟩ <;>
    simp [find_resourceid_by_name_or_id, hf, hl]

/-- Witness for C1: exercises all four branches of the resolver at concrete
inputs — an identifier-format token, and name lookups with zero, one and
two matching records. -/
theorem C1_name_resolution_witness :
    find_resourceid_by_name_or_id (fun s => s == "id-7") (fun _ _ => [])
        "router" "id-7" = (ResolveResult.ok "id-7", 0) ∧
    find_resourceid_by_name_or_id (fun _ => false) (fun _ _ => [])
        "router" "r1" = (ResolveResult.notFound, 1) ∧
    find_resourceid_by_name_or_id (fun _ => false)
        (fun _ _ => [⟨"id-1", "r1"⟩]) "router" "r1" =
      (ResolveResult.ok "id-1", 1) ∧
    find_resourceid_by_name_or_id (fun _ => false)
        (fun _ _ => [⟨"id-1", "r1"⟩, ⟨"id-2", "r1"⟩]) "router" "r1" =
      (ResolveResult.ambiguous ["id-1", "id-2"], 1) :=
  ⟨(C1_name_resolution (fun s => s == "id-7") (fun _ _ => []) "router" "id-7").1
     (by decide),
   (C1_name_resolution (fun _ => false) (fun _ _ => []) "router" "r1").2.1
     rfl rfl,
   (C1_name_resolution (fun _ => false) (fun _ _ => [⟨"id-1", "r1"⟩])
     "router" "r1").2.2.1 ⟨"id-1", "r1"⟩ rfl rfl,
   (C1_name_resolution (fun _ => false)
     (fun _ _ => [⟨"id-1", "r1"⟩, ⟨"id-2", "r1"⟩]) "router" "r1").2.2.2
     ⟨"id-1", "r1"⟩ ⟨"id-2", "r1"⟩ [] rfl rfl⟩

/-- C3: `router-create myrouter --ha` parses successfully (to
`routerCreate_myrouter_ha_args`) and `CreateRouter.args2body` produces
exactly the request body
`{"router": {"name": "myrouter", "admin_state_up": true, "ha": true}}` —
the same three-key JSON object (a JSON object's key order is immaterial;
the embedding records insertion order) — with no other keys. -/
theorem C3_create_router_ha_body :
    createRouter_args2body routerCreate_myrouter_ha_args =
      Json.obj [("router", Json.obj
        [("admin_state_up", Json.bool true),
         ("name", Json.str "myrouter"),
         ("ha", Json.bool true)])] := rfl

/-- C5: `router-gateway-clear myrouter`, when the token `myrouter` resolves
to `id-123`, calls the remove-gateway endpoint with `id-123` and prints
exactly `Removed gateway from router myrouter` — the user-supplied token,
not the resolved ID. -/
theorem C5_gateway_clear (resolver : String → String → Option String)
    (h : resolver "router" "myrouter" = some "id-123") :
    removeGatewayRouter_run resolver "myrouter" =
      some ("id-123", "Removed gateway from router myrouter") := by
  unfold removeGatewayRouter_run
  rw [h]
  decide

/-- Witness for C5: a concrete resolver mapping `myrouter` to `id-123`. -/
theorem C5_gateway_clear_witness :
    removeGatewayRouter_run (fun _ _ => some "id-123") "myrouter" =
      some ("id-123", "Removed gateway from router myrouter") :=
  C5_gateway_clear (fun _ _ => some "id-123") rfl

/-- C8: the `external_gateway_info` column formatter returns the compact
JSON rendering of the record's `external_gateway_info` value when that key
is present, and the empty string when the key is absent or the record is
not an indexable mapping. -/
theorem C8_format_external_gateway_info :
    (∀ fields v, lookupField fields "external_gateway_info" = some v →
       _format_external_gateway_info (Json.obj fields) = Json.dumps v) ∧
    (∀ fields, lookupField fields "external_gateway_info" = none →
       _format_external_gateway_info (Json.obj fields) = "") ∧
    (∀ router : Json, (∀ fields, router ≠ Json.obj fields) →
       _format_external_gateway_info router = "") := by
  refine ⟨fun fields v h => ?_, fun fields h => ?_, fun router h => ?_⟩
  · simp [_format_external_gateway_info, h]
  · simp [_format_external_gateway_info, h]
  · cases router with
    | obj fields => exact absurd rfl (h fields)
    | _ => rfl

/-- Witness for C8: a record carrying a nested gateway object renders it as
compact JSON; a record without the key, and a non-mapping record, render as
the empty string. -/
theorem C8_format_external_gateway_info_witness :
    _format_external_gateway_info
        (Json.obj [("id", Json.str "r1"),
          ("external_gateway_info",
            Json.obj [("network_id", Json.str "n1")])]) =
      "\x7b\"network_id\": \"n1\"\x7d" ∧
    _format_external_gateway_info (Json.obj [("id", Json.str "r1")]) = "" ∧
    _format_external_gateway_info Json.null = "" :=
  ⟨(C8_format_external_gateway_info.1
      [("id", Json.str "r1"),
       ("external_gateway_info", Json.obj [("network_id", Json.str "n1")])]
      (Json.obj [("network_id", Json.str "n1")]) rfl).trans rfl,
   C8_format_external_gateway_info.2.1 [("id", Json.str "r1")] rfl,
   C8_format_external_gateway_info.2.2 Json.null (fun fields h => by cases h)⟩

/-- C2 counterexample: a usage error reported by a subcommand's argument
parser raises `SystemExit(2)`, which `run_subcommand` re-raises and `main`
does not catch (`SystemExit` is not an `Exception`), so the process exit
code is 2 — not the 1 the claim requires for usage errors.  Concrete
failing input: `neutron router-create` with the required NAME positional
missing makes argparse call `parser.error`, i.e. `sys.exit(2)`. -/
theorem C2_exit_code_counterexample :
    processExit (ShellEvent.subUsageExit 2) = 2 ∧
    (2 : Int) ≠ 0 ∧ (2 : Int) ≠ 1 ∧ (2 : Int) ≠ 130 := by decide

/-- C2 (amended): the process exit code is the subcommand's return value
(0) when the command succeeds, 1 when a name-resolution failure, a client
(remote API) error, or any other runtime error is caught — at default or
debug verbosity — during initialization or the subcommand, and 130 on
`KeyboardInterrupt`; but a usage error reported by an argument parser
terminates the process with the parser's own `SystemExit` code (2 for
argparse), which `main` passes through. -/
theorem C2_exit_codes :
    (∀ c, processExit (ShellEvent.subSuccess c) = c) ∧
    processExit ShellEvent.interrupt = 130 ∧
    (∀ dbg isClient, processExit (ShellEvent.initError dbg isClient) = 1) ∧
    (∀ dbg isClient, processExit (ShellEvent.subError dbg isClient) = 1) ∧
    (∀ c, processExit (ShellEvent.subUsageExit c) = c) ∧
    (∀ c, processExit (ShellEvent.globalUsageExit c) = c) := by
  refine ⟨fun c => rfl, rfl, ?_, ?_, fun c => rfl, fun c => rfl⟩ <;>
    (intro dbg isClient; cases dbg <;> cases isClient <;> rfl)

/-- C7: the shell never runs a subcommand without first authenticating
against the identity provider — `authenticate_user` runs during
`initialize_app`, before `run_subcommand` — whenever the resolved command
is not `help`; the resolved `help` command runs without authentication,
and the `bash-completion` pseudo-path short-circuits both. -/
theorem C7_authentication_before_subcommand :
    (∀ (find : List String → String) (remainder : List String),
       remainder ≠ [] → find remainder ≠ "help" →
       neutronShell_run_actions false find remainder =
         [ShellAction.authenticate, ShellAction.runSubcommand]) ∧
    (∀ (find : List String → String) (remainder : List String),
       remainder ≠ [] → find remainder = "help" →
       neutronShell_run_actions false find remainder =
         [ShellAction.runSubcommand]) ∧
    (∀ (find : List String → String) (remainder : List String),
       neutronShell_run_actions true find remainder =
         [ShellAction.bashCompletion]) := by
  refine ⟨fun find remainder hne hnh => ?_, fun find remainder hne hh => ?_,
          fun find remainder => rfl⟩ <;>
    cases remainder with
    | nil => exact absurd rfl hne
    | cons a t =>
      simp [neutronShell_run_actions, initialize_app_auth, *]

/-- Witness for C7: with a command resolver sending every vector to
`router-list`, the shell authenticates and then runs the subcommand; the
same resolver sent to `help` skips authentication. -/
theorem C7_authentication_before_subcommand_witness :
    neutronShell_run_actions false (fun _ => "router-list") ["router-list"] =
      [ShellAction.authenticate, ShellAction.runSubcommand] ∧
    neutronShell_run_actions false (fun _ => "help") ["help"] =
      [ShellAction.runSubcommand] :=
  ⟨C7_authentication_before_subcommand.1 (fun _ => "router-list")
     ["router-list"] (by decide) (by decide),
   C7_authentication_before_subcommand.2.1 (fun _ => "help")
     ["help"] (by decide) rfl⟩

/-- Splitting at the first `'='` of `x ++ '=' :: v` recovers `(x, v)` when
`x` itself contains no `'='`. -/
theorem splitEqOnce_append (x v : List Char) (hx : '=' ∉ x) :
    splitEqOnce (x ++ '=' :: v) = some (x, v) := by
  induction x with
  | nil => simp [splitEqOnce]
  | cons c cs ih =>
    rw [List.mem_cons] at hx
    push_neg at hx
    rw [List.cons_append]
    simp [splitEqOnce, Ne.symm hx.1, ih hx.2]

/-- C4: `router-interface-add r1 subnet=s1`, when router `r1` resolves to
`R` and subnet `s1` resolves to `S`, calls the add-interface endpoint on
router `R` with exactly the body `{"subnet_id": S}` — the first two
components of the result are the arguments of the `add_interface_router`
call — and prints `AddInterfaceRouter`'s interface-added message
interpolating the `port_id` field of the returned port info. -/
theorem C4_interface_add (resolver : String → String → Option String)
    (call_api : String → List (String × Json) → PortInfo) (R S : String)
    (hr : resolver "router" "r1" = some R)
    (hs : resolver "subnet" "s1" = some S) :
    routerInterface_run resolver call_api addInterfaceRouter_success_message
        "r1" "subnet=s1".data =
      some (R, [("subnet_id", Json.str S)],
        addInterfaceRouter_success_message "r1"
          (call_api R [("subnet_id", Json.str S)])) := by
  show interfaceResolveStep resolver call_api addInterfaceRouter_success_message
      "r1" "subnet" "s1" = _
  unfold interfaceResolveStep
  rw [hr, hs]
  rfl

/-- Witness for C4: a concrete resolver and a concrete add-interface
endpoint returning port `port-7`; the whole run evaluates to the resolved
router id, the body, and the printed message. -/
theorem C4_interface_add_witness :
    routerInterface_run
        (fun resource token =>
          if resource = "router" && token = "r1" then some "rid-1"
          else if resource = "subnet" && token = "s1" then some "sid-1"
          else none)
        (fun _ _ => ⟨"port-7"⟩) addInterfaceRouter_success_message
        "r1" "subnet=s1".data =
      some ("rid-1", [("subnet_id", Json.str "sid-1")],
        "Added interface port-7 to router r1.") :=
  C4_interface_add
    (fun resource token =>
      if resource = "router" && token = "r1" then some "rid-1"
      else if resource = "subnet" && token = "s1" then some "sid-1"
      else none)
    (fun _ _ => ⟨"port-7"⟩) "rid-1" "sid-1" rfl rfl

/-- C9: for an INTERFACE token `X=V` whose resource part `X` is neither
`subnet` nor `port`, `RouterInterfaceCommand.run` raises no usage error —
the `CommandError` (`routerInterface_usageErrorText`) is constructed at
`router.py` line 171 but never raised — and the run proceeds to attempt
name resolution for the unknown resource type `X` with value `V`, exactly
as `interfaceResolveStep` does for a recognized resource. -/
theorem C9_unknown_interface_resource
    (resolver : String → String → Option String)
    (call_api : String → List (String × Json) → PortInfo)
    (success_message : String → PortInfo → String)
    (routerArg : String) (x v : List Char) (hx : '=' ∉ x)
    (_hsub : String.mk x ≠ "subnet") (_hport : String.mk x ≠ "port") :
    routerInterface_run resolver call_api success_message routerArg
        (x ++ '=' :: v) =
      interfaceResolveStep resolver call_api success_message routerArg
        (String.mk x) (String.mk v) := by
  unfold routerInterface_run
  rw [splitEqOnce_append x v hx]

/-- Witness for C9: the unknown resource type `gadget` is split off the
token `gadget=g1` and handed to the resolver as-is; with a resolver that
knows `gadget`, the run completes and builds the body key `gadget_id`. -/
theorem C9_unknown_interface_resource_witness :
    routerInterface_run (fun _ _ => some "uuid-1") (fun _ _ => ⟨"p1"⟩)
        (fun _ _ => "msg") "r1" ("gadget".data ++ '=' :: "g1".data) =
      interfaceResolveStep (fun _ _ => some "uuid-1") (fun _ _ => ⟨"p1"⟩)
        (fun _ _ => "msg") "r1" "gadget" "g1" :=
  C9_unknown_interface_resource (fun _ _ => some "uuid-1")
    (fun _ _ => ⟨"p1"⟩) (fun _ _ => "msg") "r1" "gadget".data "g1".data
    (by decide) (by decide) (by decide)

/-- C6: `UpdateRouter.args2body` includes only fields the user specified —
every body entry comes from a given argument, and no entry is `null` —
except that `--no-routes` (mutually exclusive with `--route` in the
argparse group, hence the hypothesis) puts `"routes": null` into the
body. -/
theorem C6_update_router_body (a : UpdateRouterArgs)
    (hmx : ¬(a.no_routes = true ∧ a.routes ≠ [])) :
    (∀ k v, (k, v) ∈ updateRouter_body a → specifiedUpdateField a k v) ∧
    (∀ k v, (k, v) ∈ updateRouter_body a → v = Json.null →
       k = "routes" ∧ a.no_routes = true) ∧
    (a.no_routes = true → ("routes", Json.null) ∈ updateRouter_body a) := by
  obtain ⟨n, adm, d, rts, nr⟩ := a
  refine ⟨?_, ?_, ?_⟩ <;>
    cases adm <;> cases n <;> cases d <;> cases nr <;> cases rts <;>
      simp_all [updateRouter_body, update_dict, specifiedUpdateField] <;>
      aesop

/-- Witness for C6: `router-update` with `--name r2 --no-routes` produces a
body whose `routes` entry is `null`. -/
theorem C6_update_router_body_witness :
    ("routes", Json.null) ∈
      updateRouter_body { name := some "r2", no_routes := true } :=
  (C6_update_router_body { name := some "r2", no_routes := true }
    (by decide)).2.2 rfl

/-- The token found by `pyIndex` is at the head of the suffix dropped at
its index. -/
theorem pyIndex_drop_head (tok : String) (l : List String) (i : Nat)
    (h : pyIndex tok l = some i) : (l.drop i).head? = some tok := by
  induction l generalizing i with
  | nil => simp [pyIndex] at h
  | cons a t ih =>
    by_cases ha : a = tok
    · simp [pyIndex, ha] at h
      simp [← h, ha]
    · simp [pyIndex, ha, Option.map_eq_some'] at h
      obtain ⟨j, hj, rfl⟩ := h
      simpa using ih j hj

/-- Python truthiness folds `x and [] or x` back to `x`. -/
theorem pyAndOr_true_nil (x : List String) : pyAndOr true x [] = x := by
  cases x <;> simp [pyAndOr]

/-- C10 counterexample: the claim fails for `subnet-create` without `--`.
Concrete input: subcommand vector `mynet --name s1 10.0.0.0/24` for
`subnet-create`.  Here the CIDR is separated from the `network` positional
by the interleaved `--name` option, which is precisely the situation the
comment at `shell.py` lines 113-116 describes (bug 1442771): "argparse
does not allow optional positional parameter to be separated from previous
positional parameter", so the parser consumes `mynet` and `--name s1`,
leaves `known_args.cidr` unset, and saves `10.0.0.0/24` among the
unrecognized leftovers.  `run_command` then moves the CIDR into
`known_args.cidr` and stores `[]` as the free-form values — not the
leftover tokens `["10.0.0.0/24"]` the claim requires. -/
theorem C10_run_command_counterexample :
    (run_command true false (fun s => s == "10.0.0.0/24")
        (fun _ => ["10.0.0.0/24"])
        ["mynet", "--name", "s1", "10.0.0.0/24"]).valuesSpecs
      = [] ∧
    (run_command true false (fun s => s == "10.0.0.0/24")
        (fun _ => ["10.0.0.0/24"])
        ["mynet", "--name", "s1", "10.0.0.0/24"]).cidrFixup
      = some "10.0.0.0/24" ∧
    ([] : List String) ≠ ["10.0.0.0/24"] := by decide

/-- C10 (amended): for every subcommand argument vector containing `--`,
`run_command` passes only the tokens strictly before the first `--` to the
subcommand's argument parser and stores as the command's free-form values
the suffix starting at and including the `--` token itself; for a vector
without `--`, the unrecognized leftover tokens are stored instead — except
that for `subnet-create` with no `cidr` parsed, the first leftover token
accepted by the CIDR validity test is moved into the `cidr` argument and
its first occurrence is removed from the stored leftovers. -/
theorem C10_run_command_split (isCS cidrSet : Bool)
    (isValidCidr : String → Bool)
    (parseLeftovers : List String → List String) (sub_argv : List String) :
    (∀ i, pyIndex "--" sub_argv = some i →
       (run_command isCS cidrSet isValidCidr parseLeftovers
           sub_argv).parserInput = sub_argv.take i ∧
       (run_command isCS cidrSet isValidCidr parseLeftovers
           sub_argv).valuesSpecs = sub_argv.drop i ∧
       (sub_argv.drop i).head? = some "--") ∧
    (pyIndex "--" sub_argv = none →
       (run_command isCS cidrSet isValidCidr parseLeftovers
           sub_argv).parserInput = sub_argv ∧
       ((isCS && !cidrSet) = false →
          (run_command isCS cidrSet isValidCidr parseLeftovers
              sub_argv).valuesSpecs = parseLeftovers sub_argv) ∧
       ((parseLeftovers sub_argv).find? isValidCidr = none →
          (run_command isCS cidrSet isValidCidr parseLeftovers
              sub_argv).valuesSpecs = parseLeftovers sub_argv) ∧
       (∀ c, (isCS && !cidrSet) = true →
          (parseLeftovers sub_argv).find? isValidCidr = some c →
          (run_command isCS cidrSet isValidCidr parseLeftovers
              sub_argv).valuesSpecs = (parseLeftovers sub_argv).erase c ∧
          (run_command isCS cidrSet isValidCidr parseLeftovers
              sub_argv).cidrFixup = some c)) := by
  constructor
  · intro i hi
    refine ⟨?_, ?_, pyIndex_drop_head "--" sub_argv i hi⟩ <;>
      simp [run_command, hi, pyAndOr]
  · intro hn
    refine ⟨?_, ?_, ?_, ?_⟩
    · simp [run_command, hn]
    · intro hno
      simp [run_command, hn, hno, pyAndOr_true_nil]
    · intro hfind
      simp [run_command, hn, get_first_valid_cidr, hfind, pyAndOr_true_nil]
    · intro c hcs hfind
      simp [run_command, hn, hcs, get_first_valid_cidr, hfind,
        pyAndOr_true_nil]

/-- Witness for C10: for the vector `a -- b` with an echo parser, the
parser receives `[a]` and the free-form values are `["--", "b"]`; for
`a b` with no `--` and leftovers `[b]` on a non-subnet command, the
leftovers are stored. -/
theorem C10_run_command_split_witness :
    ((run_command false false (fun _ => false) (fun l => l)
        ["a", "--", "b"]).parserInput = ["a"] ∧
     (run_command false false (fun _ => false) (fun l => l)
        ["a", "--", "b"]).valuesSpecs = ["--", "b"] ∧
     (["a", "--", "b"].drop 1).head? = some "--") ∧
    (run_command false false (fun _ => false) (fun _ => ["b"])
        ["a", "b"]).valuesSpecs = ["b"] :=
  ⟨(C10_run_command_split false false (fun _ => false) (fun l => l)
      ["a", "--", "b"]).1 1 (by decide),
   ((C10_run_command_split false false (fun _ => false) (fun _ => ["b"])
      ["a", "b"]).2 (by decide)).2.1 rfl⟩

end NeutronClient
